import Mathlib

/-!
Shallow embedding of the html5_rdp remote-desktop agent (Rust sources under
src/agent/src/) and proofs about its session registry, transport layer,
encoder, capture loop, error classification and configuration validation.

Machine integers: the Rust code uses u64 counters and timestamps.  Where
overflow can actually matter (the timeout sweep computes
now - last_activity on u64, which wraps), the subtraction is modelled
explicitly modulo 2^64; monotone counters that cannot realistically wrap
(frame counts) are modelled as Nat.
-/

/-- Quality levels for video encoding (types.rs, enum Quality). -/
inductive Quality
  | low
  | medium
  | high
  | ultra
deriving DecidableEq, Repr

/-- Position of a quality level in the declared order Low, Medium, High,
Ultra; used to state monotonicity of the bitrate table. -/
def Quality.rank : Quality → Nat
  | .low => 0
  | .medium => 1
  | .high => 2
  | .ultra => 3

/-- Video codec types (types.rs, enum VideoCodec). -/
inductive VideoCodec
  | h264
  | vp8
  | vp9
  | av1
deriving DecidableEq, Repr

/-- Error kinds of the agent (error.rs, enum AgentError).  Variants that in
Rust wrap foreign error types (Io, Serialization, Url, Uuid, SystemTime,
OpenH264, WebRTC) carry the rendered message as a String here. -/
inductive AgentError
  | config (msg : String)
  | capture (msg : String)
  | input (msg : String)
  | transport (msg : String)
  | webSocket (msg : String)
  | auth (msg : String)
  | videoEncoding (msg : String)
  | encoderError (msg : String)
  | audioCapture (msg : String)
  | system (msg : String)
  | network (msg : String)
  | security (msg : String)
  | ioError (msg : String)
  | serialization (msg : String)
  | urlParse (msg : String)
  | other (msg : String)
  | uuidError (msg : String)
  | systemTime (msg : String)
  | openH264 (msg : String)
  | webRTC (msg : String)
  | encoderNotInitialized
deriving DecidableEq, Repr

/-- AgentError::is_recoverable (error.rs lines 70-75): matches Network,
Transport and WebSocket only. -/
def AgentError.is_recoverable : AgentError → Bool
  | .network _ => true
  | .transport _ => true
  | .webSocket _ => true
  | _ => false

/-- AgentError::is_critical (error.rs lines 77-82): matches Config, Auth and
Security only. -/
def AgentError.is_critical : AgentError → Bool
  | .config _ => true
  | .auth _ => true
  | .security _ => true
  | _ => false

/-- Client capabilities negotiated per session (types.rs,
struct ClientCapabilities). -/
structure ClientCapabilities where
  video : Bool
  audio : Bool
  clipboard : Bool
  file_transfer : Bool
  touch : Bool
  multi_monitor : Bool
deriving DecidableEq, Repr

/-- Per-session statistics (types.rs, struct SessionStats). -/
structure SessionStats where
  frames_sent : Nat
  frames_dropped : Nat
  bytes_sent : Nat
  bytes_received : Nat
  connection_time : Nat
  reconnections : Nat
deriving DecidableEq, Repr

/-- The all-zero statistics record produced by Default::default() in
Agent::create_session. -/
def SessionStats.zero : SessionStats :=
  { frames_sent := 0, frames_dropped := 0, bytes_sent := 0,
    bytes_received := 0, connection_time := 0, reconnections := 0 }

/-- Session information (types.rs, struct Session).  The Uuid id is
modelled as a String (create_session generates it as a string and parses
it back). -/
structure Session where
  id : String
  client_id : String
  start_time : Nat
  last_activity : Nat
  quality : Quality
  capabilities : ClientCapabilities
  stats : SessionStats
deriving DecidableEq, Repr

/-- Connection state (types.rs, enum ConnectionState). -/
inductive ConnectionState
  | disconnected
  | connecting
  | connected
  | reconnecting
  | failed
deriving DecidableEq, Repr

/-- Transport type (types.rs, enum TransportType). -/
inductive TransportType
  | webRTC
  | webSocket
deriving DecidableEq, Repr

/-- Protocol message envelope (types.rs, struct Message).  The JSON payload
is modelled as its serialized text. -/
structure Message where
  msgType : String
  channel : String
  data : String
  timestamp : Nat
  sequence : Option Nat
  version : String
deriving DecidableEq, Repr

/-- Server configuration (config.rs, struct ServerConfig). -/
structure ServerConfig where
  host : String
  port : Nat
  max_connections : Nat
  connection_timeout : Nat
  heartbeat_interval : Nat
deriving DecidableEq, Repr

/-- Authentication configuration (config.rs, struct AuthConfig). -/
structure AuthConfig where
  token : Option String
  require_auth : Bool
  session_timeout : Nat
  max_failed_attempts : Nat
deriving DecidableEq, Repr

/-- Screen capture configuration (config.rs, struct CaptureConfig). -/
structure CaptureConfig where
  video : Bool
  audio : Bool
  quality : Quality
  framerate : Nat
  codec : VideoCodec
  hardware_acceleration : Bool
  multi_monitor : Bool
  capture_cursor : Bool
deriving DecidableEq, Repr

/-- Input injection configuration (config.rs, struct InputConfig).  The
f32 field mouse_sensitivity is modelled as a rational number; the values
the code compares it against (0.0 and the default 1.0) are exactly
representable in f32, so the comparison in validate() is faithful. -/
structure InputConfig where
  enable_mouse : Bool
  enable_keyboard : Bool
  enable_touch : Bool
  enable_clipboard : Bool
  enable_file_transfer : Bool
  mouse_sensitivity : Rat
  keyboard_repeat_delay : Nat
deriving DecidableEq, Repr

/-- Transport configuration (config.rs, struct TransportConfig). -/
structure TransportConfig where
  webrtc_enabled : Bool
  websocket_enabled : Bool
  ice_servers : List String
  max_bitrate : Nat
  enable_compression : Bool
deriving DecidableEq, Repr

/-- Security configuration (config.rs, struct SecurityConfig). -/
structure SecurityConfig where
  enable_encryption : Bool
  enable_audit_logging : Bool
  allowed_ips : List String
  rate_limit_requests : Nat
  rate_limit_window : Nat
deriving DecidableEq, Repr

/-- Logging configuration (config.rs, struct LoggingConfig). -/
structure LoggingConfig where
  level : String
  file : Option String
  max_file_size : Nat
  max_files : Nat
  enable_console : Bool
deriving DecidableEq, Repr

/-- Main configuration (config.rs, struct Config). -/
structure Config where
  server : ServerConfig
  auth : AuthConfig
  capture : CaptureConfig
  input : InputConfig
  transport : TransportConfig
  security : SecurityConfig
  logging : LoggingConfig
deriving DecidableEq, Repr

/-- Config::default (config.rs lines 116-175), field for field. -/
def Config.default : Config :=
  { server :=
      { host := "0.0.0.0", port := 8080, max_connections := 10,
        connection_timeout := 30000, heartbeat_interval := 30000 },
    auth :=
      { token := none, require_auth := true, session_timeout := 3600000,
        max_failed_attempts := 3 },
    capture :=
      { video := true, audio := false, quality := .medium, framerate := 30,
        codec := .h264, hardware_acceleration := true,
        multi_monitor := false, capture_cursor := true },
    input :=
      { enable_mouse := true, enable_keyboard := true, enable_touch := true,
        enable_clipboard := false, enable_file_transfer := false,
        mouse_sensitivity := 1, keyboard_repeat_delay := 500 },
    transport :=
      { webrtc_enabled := true, websocket_enabled := true,
        ice_servers := ["stun:stun.l.google.com:19302",
                        "stun:stun1.l.google.com:19302"],
        max_bitrate := 2000000, enable_compression := true },
    security :=
      { enable_encryption := true, enable_audit_logging := true,
        allowed_ips := [], rate_limit_requests := 100,
        rate_limit_window := 60000 },
    logging :=
      { level := "info", file := none, max_file_size := 10 * 1024 * 1024,
        max_files := 5, enable_console := true } }

/-- Config::validate (config.rs lines 178-236): the checks in source
order, returning the first failing check as a Configuration error. -/
def Config.validate (c : Config) : Except AgentError Unit :=
  if c.server.port = 0 then
    .error (.config "Port cannot be 0")
  else if c.server.max_connections = 0 then
    .error (.config "Max connections cannot be 0")
  else if c.auth.require_auth && c.auth.token.isNone then
    .error (.config "Token required when authentication is enabled")
  else if c.auth.session_timeout = 0 then
    .error (.config "Session timeout cannot be 0")
  else if c.capture.framerate = 0 then
    .error (.config "Framerate cannot be 0")
  else if 120 < c.capture.framerate then
    .error (.config "Framerate cannot exceed 120")
  else if c.input.mouse_sensitivity ≤ 0 then
    .error (.config "Mouse sensitivity must be positive")
  else if c.input.keyboard_repeat_delay = 0 then
    .error (.config "Keyboard repeat delay cannot be 0")
  else if !c.transport.webrtc_enabled && !c.transport.websocket_enabled then
    .error (.config "At least one transport must be enabled")
  else if c.transport.max_bitrate = 0 then
    .error (.config "Max bitrate cannot be 0")
  else if c.security.rate_limit_requests = 0 then
    .error (.config "Rate limit requests cannot be 0")
  else if c.security.rate_limit_window = 0 then
    .error (.config "Rate limit window cannot be 0")
  else if c.logging.max_file_size = 0 then
    .error (.config "Max file size cannot be 0")
  else if c.logging.max_files = 0 then
    .error (.config "Max files cannot be 0")
  else
    .ok ()

/-- VideoEncoder::get_bitrate (encoder.rs lines 83-90): the fixed
quality-to-bitrate table, read off the quality stored in the encoder
configuration. -/
def get_bitrate (config : CaptureConfig) : Nat :=
  match config.quality with
  | .low => 500000
  | .medium => 1500000
  | .high => 3000000
  | .ultra => 6000000

/-- Lookup in an association list keyed by String, modelling
std::collections::HashMap::get. -/
def lookupKey {α : Type} : List (String × α) → String → Option α
  | [], _ => none
  | p :: rest, k => if p.1 = k then some p.2 else lookupKey rest k

/-- Removal of a key, modelling HashMap::remove (the removed value is
discarded by all call sites modelled here). -/
def eraseKey {α : Type} (m : List (String × α)) (k : String) : List (String × α) :=
  m.filter (fun p => decide (p.1 ≠ k))

/-- Insertion of a key-value pair, modelling HashMap::insert (replaces any
existing binding of the key). -/
def insertKey {α : Type} (m : List (String × α)) (k : String) (v : α) : List (String × α) :=
  (k, v) :: eraseKey m k

theorem lookupKey_insertKey_self {α : Type} (m : List (String × α)) (k : String) (v : α) :
    lookupKey (insertKey m k v) k = some v := by
  simp [insertKey, lookupKey]

theorem lookupKey_eraseKey_self {α : Type} (m : List (String × α)) (k : String) :
    lookupKey (eraseKey m k) k = none := by
  induction m with
  | nil => rfl
  | cons p rest ih =>
    by_cases h : p.1 = k
    · simpa [eraseKey, List.filter, h] using ih
    · simpa [eraseKey, List.filter, h, lookupKey] using ih

theorem eraseKey_of_lookupKey_none {α : Type} (m : List (String × α)) (k : String)
    (h : lookupKey m k = none) : eraseKey m k = m := by
  induction m with
  | nil => rfl
  | cons p rest ih =>
    by_cases hp : p.1 = k
    · simp [lookupKey, hp] at h
    · simp [lookupKey, hp] at h
      simp [eraseKey, List.filter, hp] at ih ⊢
      exact ih h

theorem lookupKey_filter_key {α : Type} (f : String → Bool) (m : List (String × α)) (k : String) :
    lookupKey (m.filter (fun p => f p.1)) k = if f k then lookupKey m k else none := by
  induction m with
  | nil => simp [lookupKey]
  | cons p rest ih =>
    by_cases hf : f p.1
    · by_cases hp : p.1 = k
      · subst hp
        simp [List.filter_cons, hf, lookupKey]
      · simp [List.filter_cons, hf, lookupKey, hp, ih]
    · by_cases hp : p.1 = k
      · subst hp
        simp only [List.filter_cons]
        rw [if_neg (by simp [hf])]
        simp [ih, hf]
      · simp only [List.filter_cons]
        rw [if_neg (by simp [hf])]
        simp [ih, lookupKey, hp]

theorem mem_of_lookupKey_some {α : Type} {m : List (String × α)} {k : String} {v : α}
    (h : lookupKey m k = some v) : (k, v) ∈ m := by
  induction m with
  | nil => simp [lookupKey] at h
  | cons p rest ih =>
    obtain ⟨a, b⟩ := p
    by_cases hp : a = k
    · simp only [lookupKey, hp, if_pos] at h
      have hb : b = v := by simpa using h
      subst hp
      subst hb
      exact List.mem_cons_self _ _
    · simp only [lookupKey, if_neg hp] at h
      exact List.mem_cons_of_mem _ (ih h)

theorem lookupKey_of_mem_nodup {α : Type} {m : List (String × α)} {k : String} {v : α}
    (hnd : (m.map Prod.fst).Nodup) (h : (k, v) ∈ m) : lookupKey m k = some v := by
  induction m with
  | nil => simp at h
  | cons p rest ih =>
    simp only [List.map_cons, List.nodup_cons] at hnd
    rcases List.mem_cons.mp h with h1 | h1
    · subst h1
      simp [lookupKey]
    · have hne : p.1 ≠ k := by
        intro he
        exact hnd.1 (he ▸ (List.mem_map.mpr ⟨(k, v), h1, rfl⟩))
      simp [lookupKey, hne]
      exact ih hnd.2 h1

/-- Mutable session state owned by the Agent (agent.rs, field
sessions: Arc of Mutex of HashMap).  Uuid::new_v4, an external source of
fresh identifiers, is modelled by a counter whose value has not been used
yet; only freshness matters to the registry, and none of the theorems
below even rely on it. -/
structure AgentSessions where
  sessions : List (String × Session)
  next_uuid : Nat
deriving DecidableEq, Repr

/-- Fresh session identifier string produced for Uuid::new_v4().to_string(). -/
def freshUuid (n : Nat) : String := "uuid-" ++ toString n

/-- Agent::create_session (agent.rs lines 98-128): builds the Session with
the given client_id, start_time and last_activity set to the current time,
default quality taken from the capture configuration and zeroed stats,
inserts it into the session map under a fresh id and returns the id. -/
def Agent.create_session (cfg : Config) (now : Nat) (st : AgentSessions)
    (client_id : String) (capabilities : ClientCapabilities) :
    String × AgentSessions :=
  let session_id := freshUuid st.next_uuid
  let session : Session :=
    { id := session_id, client_id := client_id, start_time := now,
      last_activity := now, quality := cfg.capture.quality,
      capabilities := capabilities, stats := SessionStats.zero }
  (session_id,
   { sessions := insertKey st.sessions session_id session,
     next_uuid := st.next_uuid + 1 })

/-- Agent::get_session (agent.rs lines 147-150): a map lookup. -/
def Agent.get_session (st : AgentSessions) (session_id : String) : Option Session :=
  lookupKey st.sessions session_id

/-- Agent::destroy_session (agent.rs lines 130-145): removes the id from
the session map (logging when something was removed) and returns Ok either
way. -/
def Agent.destroy_session (st : AgentSessions) (session_id : String) : AgentSessions :=
  { st with sessions := eraseKey st.sessions session_id }

/-- Width of u64. -/
def u64Mod : Nat := 18446744073709551616

/-- Wrapping u64 subtraction a - b for a b < 2^64, as Rust release builds
compute now - session.last_activity in the sweep. -/
def wrapSub64 (a b : Nat) : Nat := (u64Mod + a - b) % u64Mod

/-- Eviction test of the timeout sweep (agent.rs line 196):
now - session.last_activity > config.auth.session_timeout on u64. -/
def session_expired (session_timeout now : Nat) (s : Session) : Bool :=
  session_timeout < wrapSub64 now s.last_activity

/-- One iteration of the session timeout sweep (agent.rs lines 183-206):
snapshot the ids of expired sessions under the lock, then remove them one
by one, each removal tolerating that the id may already be gone. -/
def sweep_sessions (session_timeout now : Nat)
    (sessions : List (String × Session)) : List (String × Session) :=
  let sessions_to_remove :=
    (sessions.filter (fun p => session_expired session_timeout now p.2)).map Prod.fst
  sessions_to_remove.foldl (fun m session_id => eraseKey m session_id) sessions

theorem foldl_eraseKey_eq_filter {α : Type} (ids : List String) (m : List (String × α)) :
    ids.foldl (fun m k => eraseKey m k) m
      = m.filter (fun p => decide (p.1 ∉ ids)) := by
  induction ids generalizing m with
  | nil => simp
  | cons i rest ih =>
    rw [List.foldl_cons, ih, eraseKey, List.filter_filter]
    apply List.filter_congr
    intro p _
    simp only [List.mem_cons, decide_not]
    by_cases h1 : p.1 = i <;> by_cases h2 : p.1 ∈ rest <;> simp [h1, h2]

theorem wrapSub64_of_le {a b : Nat} (hba : b ≤ a) (ha : a < u64Mod) :
    wrapSub64 a b = a - b := by
  unfold wrapSub64 u64Mod at *
  omega

/-- C1: for every configuration, time, prior registry state, client_id and
capabilities, create_session followed by get_session on the returned id
yields a session whose client_id is the one passed in, and get_session
after destroy_session on that id returns none. -/
theorem create_get_destroy_session (cfg : Config) (now : Nat) (st : AgentSessions)
    (client_id : String) (capabilities : ClientCapabilities) :
    (∃ s, Agent.get_session (Agent.create_session cfg now st client_id capabilities).2
            (Agent.create_session cfg now st client_id capabilities).1 = some s
          ∧ s.client_id = client_id)
    ∧ Agent.get_session
        (Agent.destroy_session (Agent.create_session cfg now st client_id capabilities).2
          (Agent.create_session cfg now st client_id capabilities).1)
        (Agent.create_session cfg now st client_id capabilities).1 = none := by
  constructor
  · have hget : Agent.get_session
        (Agent.create_session cfg now st client_id capabilities).2
        (Agent.create_session cfg now st client_id capabilities).1
        = some { id := freshUuid st.next_uuid, client_id := client_id,
                 start_time := now, last_activity := now,
                 quality := cfg.capture.quality,
                 capabilities := capabilities, stats := SessionStats.zero } := by
      simp [Agent.get_session, Agent.create_session, lookupKey_insertKey_self]
    exact ⟨_, hget, rfl⟩
  · simp [Agent.get_session, Agent.destroy_session, Agent.create_session,
      lookupKey_eraseKey_self]

/-- C2: one sweep iteration, run over a session map with distinct keys whose
last_activity values do not exceed the current time (the monotonic clock
invariant of the registry), removes exactly the sessions with
now - last_activity > session_timeout, leaves every other session present
and unchanged, and removing an id that is already gone is a no-op. -/
theorem timeout_sweep_exact (session_timeout now : Nat)
    (sessions : List (String × Session))
    (hnd : (sessions.map Prod.fst).Nodup)
    (hnow : now < u64Mod)
    (hla : ∀ p ∈ sessions, p.2.last_activity ≤ now) :
    (∀ k s, lookupKey sessions k = some s →
       lookupKey (sweep_sessions session_timeout now sessions) k
         = if session_timeout < now - s.last_activity then none else some s)
    ∧ (∀ k, lookupKey sessions k = none →
        lookupKey (sweep_sessions session_timeout now sessions) k = none)
    ∧ (∀ (m : List (String × Session)) (k : String),
        lookupKey m k = none → eraseKey m k = m) := by
  have hexp : ∀ p ∈ sessions,
      session_expired session_timeout now p.2
        = decide (session_timeout < now - p.2.last_activity) := by
    intro p hp
    simp only [session_expired, wrapSub64_of_le (hla p hp) hnow]
  have hsweep : sweep_sessions session_timeout now sessions
      = sessions.filter (fun p => decide (p.1 ∉
          ((sessions.filter (fun q => session_expired session_timeout now q.2)).map
            Prod.fst))) := by
    simpa [sweep_sessions] using
      foldl_eraseKey_eq_filter
        ((sessions.filter (fun q => session_expired session_timeout now q.2)).map Prod.fst)
        sessions
  refine ⟨?_, ?_, ?_⟩
  · intro k s hk
    have hmem := mem_of_lookupKey_some hk
    have hmemrem : (k ∈ (sessions.filter
        (fun q => session_expired session_timeout now q.2)).map Prod.fst)
        ↔ session_timeout < now - s.last_activity := by
      constructor
      · intro hin
        rcases List.mem_map.mp hin with ⟨q, hq, hq1⟩
        rcases List.mem_filter.mp hq with ⟨hqmem, hqexp⟩
        have : lookupKey sessions k = some q.2 := by
          have : (k, q.2) ∈ sessions := by
            have : q = (k, q.2) := by
              cases q
              simp at hq1
              simp [hq1]
            exact this ▸ hqmem
          exact lookupKey_of_mem_nodup hnd this
        have hqs : q.2 = s := by
          rw [hk] at this
          exact (Option.some.injEq _ _).mp this.symm
        have hq2 := hexp q hqmem
        rw [hqs] at hq2 hqexp
        rw [hq2] at hqexp
        exact of_decide_eq_true hqexp
      · intro hlt
        refine List.mem_map.mpr ⟨(k, s), List.mem_filter.mpr ⟨hmem, ?_⟩, rfl⟩
        rw [hexp (k, s) hmem]
        exact decide_eq_true hlt
    rw [hsweep, lookupKey_filter_key (fun x => decide (x ∉ _)) sessions k]
    by_cases hcase : session_timeout < now - s.last_activity
    · rw [if_pos hcase, if_neg]
      simp only [decide_eq_true_eq, Decidable.not_not]
      exact hmemrem.mpr hcase
    · rw [if_neg hcase, if_pos, hk]
      simp only [decide_eq_true_eq]
      intro hkin
      exact hcase (hmemrem.mp hkin)
  · intro k hk
    rw [hsweep, lookupKey_filter_key (fun x => decide (x ∉ _)) sessions k]
    by_cases h : (decide (k ∉ ((sessions.filter
        (fun q => session_expired session_timeout now q.2)).map Prod.fst)) = true)
    · rw [if_pos h, hk]
    · rw [if_neg h]
  · intro m k hk
    exact eraseKey_of_lookupKey_none m k hk

/-- Demonstration capabilities record for concrete evaluations. -/
def demoCaps : ClientCapabilities :=
  { video := true, audio := false, clipboard := false, file_transfer := false,
    touch := false, multi_monitor := false }

/-- Stale demonstration session: last activity 50, so at now = 100 its
inactivity 50 exceeds a timeout of 10. -/
def demoStaleSession : Session :=
  { id := "a", client_id := "client-a", start_time := 40, last_activity := 50,
    quality := .medium, capabilities := demoCaps, stats := SessionStats.zero }

/-- Fresh demonstration session: last activity 95, inactivity 5 at
now = 100, within a timeout of 10. -/
def demoFreshSession : Session :=
  { id := "b", client_id := "client-b", start_time := 90, last_activity := 95,
    quality := .high, capabilities := demoCaps, stats := SessionStats.zero }

/-- Witness for C2: on a concrete two-session map at now = 100 with
timeout 10, the sweep evicts the stale session and keeps the fresh one
unchanged. -/
theorem timeout_sweep_exact_witness :
    lookupKey (sweep_sessions 10 100 [("a", demoStaleSession), ("b", demoFreshSession)]) "a"
      = none
    ∧ lookupKey (sweep_sessions 10 100 [("a", demoStaleSession), ("b", demoFreshSession)]) "b"
      = some demoFreshSession := by
  have h := timeout_sweep_exact 10 100 [("a", demoStaleSession), ("b", demoFreshSession)]
    (by decide)
    (by decide)
    (by decide)
  constructor
  · have := h.1 "a" demoStaleSession (by rfl)
    simpa [demoStaleSession] using this
  · have := h.1 "b" demoFreshSession (by rfl)
    simpa [demoFreshSession] using this

/-- Connection bookkeeping entry (transport.rs, struct ConnectionInfo). -/
structure ConnectionInfo where
  id : String
  transport_type : TransportType
  state : ConnectionState
  client_id : String
  start_time : Nat
  last_activity : Nat
deriving DecidableEq, Repr

/-- A live WebSocket channel as the transport layer sees it; the only
behaviour the modelled call sites observe is whether websocket.send of a
message fails. -/
structure WebSocketChannel where
  send_fails : Bool
deriving DecidableEq, Repr

/-- Mutable state of the TransportManager (transport.rs): the
ConnectionInfo registry plus the two per-kind resource maps.  A WebRTC
peer connection is modelled as a unit resource: the modelled call sites
only remove it and close it, ignoring close errors. -/
structure TransportState where
  connections : List (String × ConnectionInfo)
  webrtc_peer_connections : List (String × Unit)
  websocket_connections : List (String × WebSocketChannel)
deriving DecidableEq, Repr

/-- TransportManager::send_webrtc_message (transport.rs lines 213-229):
errors when no peer connection is registered under the id, otherwise logs
and succeeds (the data-channel write is stubbed in the source). -/
def TransportManager.send_webrtc_message (st : TransportState)
    (connection_id : String) (_message : Message) : Except AgentError Unit :=
  match lookupKey st.webrtc_peer_connections connection_id with
  | some _ => .ok ()
  | none => .error (.transport "WebRTC connection not found")

/-- TransportManager::send_websocket_message (transport.rs lines 231-246):
errors when no websocket is registered under the id or when the channel
send fails, otherwise succeeds. -/
def TransportManager.send_websocket_message (st : TransportState)
    (connection_id : String) (_message : Message) : Except AgentError Unit :=
  match lookupKey st.websocket_connections connection_id with
  | some ws =>
      if ws.send_fails then
        .error (.transport "Failed to send WebSocket message")
      else .ok ()
  | none => .error (.transport "WebSocket connection not found")

/-- TransportManager::send_message (transport.rs lines 99-116): looks the
id up in the registry, dispatches on the transport kind, and errors with
"Connection not found" for unknown ids. -/
def TransportManager.send_message (st : TransportState) (connection_id : String)
    (message : Message) : Except AgentError Unit :=
  match lookupKey st.connections connection_id with
  | some connection =>
      match connection.transport_type with
      | .webRTC => TransportManager.send_webrtc_message st connection_id message
      | .webSocket => TransportManager.send_websocket_message st connection_id message
  | none => .error (.transport "Connection not found")

/-- TransportManager::broadcast_message (transport.rs lines 118-130):
snapshots the registered connection ids, then calls send_message for each
id in turn, logging and swallowing per-connection errors, and finally
returns Ok.  The returned list is the trace of send attempts, one per
snapshotted id, paired with that attempt's own outcome. -/
def TransportManager.broadcast_message (st : TransportState) (message : Message) :
    List (String × Except AgentError Unit) × Except AgentError Unit :=
  let connection_ids := st.connections.map Prod.fst
  (connection_ids.map (fun connection_id =>
      (connection_id, TransportManager.send_message st connection_id message)),
   .ok ())

/-- TransportManager::close_connection (transport.rs lines 330-365): for a
registered id, removes and closes the underlying per-kind resource
(ignoring close errors) and removes the registry entry; for an unknown id
it does nothing; it returns Ok in every case. -/
def TransportManager.close_connection (st : TransportState) (connection_id : String) :
    TransportState × Except AgentError Unit :=
  match lookupKey st.connections connection_id with
  | none => (st, .ok ())
  | some connection =>
      let st1 :=
        match connection.transport_type with
        | .webRTC =>
            { st with webrtc_peer_connections :=
                eraseKey st.webrtc_peer_connections connection_id }
        | .webSocket =>
            { st with websocket_connections :=
                eraseKey st.websocket_connections connection_id }
      ({ st1 with connections := eraseKey st1.connections connection_id }, .ok ())

theorem close_connection_not_found (st : TransportState) (connection_id : String)
    (h : lookupKey st.connections connection_id = none) :
    TransportManager.close_connection st connection_id = (st, .ok ()) := by
  simp [TransportManager.close_connection, h]

/-- C3: close_connection returns Ok, a second close of the same id also
returns Ok and leaves the registry state exactly as it was after the first
close, and closing an id that is not registered changes nothing. -/
theorem close_connection_idempotent (st : TransportState) (connection_id : String) :
    ((TransportManager.close_connection st connection_id).2 = .ok ())
    ∧ ((TransportManager.close_connection
          (TransportManager.close_connection st connection_id).1 connection_id).2
        = .ok ())
    ∧ (TransportManager.close_connection
          (TransportManager.close_connection st connection_id).1 connection_id).1
        = (TransportManager.close_connection st connection_id).1
    ∧ (lookupKey st.connections connection_id = none →
        (TransportManager.close_connection st connection_id).1 = st) := by
  cases h : lookupKey st.connections connection_id with
  | none =>
      have h1 := close_connection_not_found st connection_id h
      refine ⟨?_, ?_, ?_, fun _ => ?_⟩ <;> simp [h1]
  | some connection =>
      have h2 : (TransportManager.close_connection st connection_id).1.connections
          = eraseKey st.connections connection_id := by
        cases htt : connection.transport_type <;>
          simp [TransportManager.close_connection, h, htt]
      have hnone : lookupKey
          (TransportManager.close_connection st connection_id).1.connections
          connection_id = none := by
        rw [h2]
        exact lookupKey_eraseKey_self _ _
      have hsecond := close_connection_not_found
        (TransportManager.close_connection st connection_id).1 connection_id hnone
      refine ⟨?_, ?_, ?_, ?_⟩
      · cases htt : connection.transport_type <;>
          simp [TransportManager.close_connection, h, htt]
      · rw [hsecond]
      · rw [hsecond]
      · intro hcontra
        simp [h] at hcontra

/-- C4: broadcast_message makes one send attempt per registered connection
(the attempt trace has exactly the registered ids, in registry order), each
attempt carrying its own outcome independent of the other connections, and
broadcast_message itself returns Ok whatever the per-connection outcomes
are. -/
theorem broadcast_attempts_all (st : TransportState) (message : Message) :
    ((TransportManager.broadcast_message st message).2 = .ok ())
    ∧ (TransportManager.broadcast_message st message).1.length
        = st.connections.length
    ∧ (TransportManager.broadcast_message st message).1.map Prod.fst
        = st.connections.map Prod.fst
    ∧ ∀ connection_id ∈ st.connections.map Prod.fst,
        (connection_id, TransportManager.send_message st connection_id message)
          ∈ (TransportManager.broadcast_message st message).1 := by
  refine ⟨rfl, ?_, ?_, ?_⟩
  · simp [TransportManager.broadcast_message]
  · simp [TransportManager.broadcast_message]
  · intro connection_id hcid
    exact List.mem_map.mpr ⟨connection_id, hcid, rfl⟩

/-- Demonstration ConnectionInfo for concrete evaluations. -/
def demoConn (i : String) : ConnectionInfo :=
  { id := i, transport_type := .webSocket, state := .connected,
    client_id := "client-" ++ i, start_time := 0, last_activity := 0 }

/-- Demonstration transport state: two registered WebSocket connections,
the first of which fails on send. -/
def demoTransport : TransportState :=
  { connections := [("w1", demoConn "w1"), ("w2", demoConn "w2")],
    webrtc_peer_connections := [],
    websocket_connections :=
      [("w1", { send_fails := true }), ("w2", { send_fails := false })] }

/-- Demonstration protocol message. -/
def demoMessage : Message :=
  { msgType := "status.request", channel := "control", data := "",
    timestamp := 0, sequence := none, version := "1.0" }

/-- Witness for C3: closing an unknown id on the concrete registry is a
no-op, and closing a registered id returns Ok. -/
theorem close_connection_idempotent_witness :
    (TransportManager.close_connection demoTransport "ghost").1 = demoTransport
    ∧ (TransportManager.close_connection demoTransport "w1").2 = .ok () := by
  exact ⟨(close_connection_idempotent demoTransport "ghost").2.2.2 (by decide),
         (close_connection_idempotent demoTransport "w1").1⟩

/-- Witness for C4: on the concrete registry, the attempt for the working
connection w2 is in the broadcast trace even though the send to w1 fails,
and the broadcast returns Ok. -/
theorem broadcast_attempts_all_witness :
    ("w2", TransportManager.send_message demoTransport "w2" demoMessage)
        ∈ (TransportManager.broadcast_message demoTransport demoMessage).1
    ∧ (TransportManager.broadcast_message demoTransport demoMessage).2 = .ok ()
    ∧ TransportManager.send_message demoTransport "w1" demoMessage
        = .error (.transport "Failed to send WebSocket message")
    ∧ TransportManager.send_message demoTransport "w2" demoMessage = .ok () := by
  exact ⟨(broadcast_attempts_all demoTransport demoMessage).2.2.2 "w2" (by decide),
         (broadcast_attempts_all demoTransport demoMessage).1,
         rfl, rfl⟩

/-- Mutable state of the VideoEncoder (encoder.rs): the optional codec
handle behind the mutex, the running frame counter and the index of the
last frame at which a keyframe was forced.  The openh264 Encoder handle
itself is external and carries no behaviour the modelled call sites
observe, so it is a unit value. -/
structure VideoEncoderState where
  config : CaptureConfig
  encoder : Option Unit
  frame_count : Nat
  last_keyframe : Nat
deriving DecidableEq, Repr

/-- VideoEncoder::new (encoder.rs lines 19-28): no codec handle yet, both
counters zero. -/
def VideoEncoder.new (config : CaptureConfig) : VideoEncoderState :=
  { config := config, encoder := none, frame_count := 0, last_keyframe := 0 }

/-- VideoEncoder::initialize (encoder.rs lines 30-44): builds the codec
via the external Encoder::with_config call, whose success is the codec_ok
parameter; on success the handle is stored, on failure the error
propagates and the handle stays as it was. -/
def VideoEncoder.initEncoder (s : VideoEncoderState) (codec_ok : Bool) :
    VideoEncoderState × Except AgentError Unit :=
  if codec_ok then ({ s with encoder := some () }, .ok ())
  else (s, .error (.openH264 "encoder creation failed"))

/-- VideoEncoder::shutdown (encoder.rs lines 129-139): drops the codec
handle. -/
def VideoEncoder.shutdown (s : VideoEncoderState) :
    VideoEncoderState × Except AgentError Unit :=
  ({ s with encoder := none }, .ok ())

/-- Colour-space conversion rgba_to_yuv420 (encoder.rs lines 92-127).  The
source computes it with f32 arithmetic; no claim concerns the pixel
values, so the byte list passes through unchanged here, which preserves
everything the claims observe (which frames are produced, and when). -/
def rgba_to_yuv420 (rgba : List Nat) : List Nat := rgba

/-- Keyframe decision of encode_frame (encoder.rs lines 49-52): after the
counter increment, the source comment "Force keyframe every 2 seconds"
fires when frame_count - last_keyframe reaches framerate * 2, and
last_keyframe is reset to the current frame count. -/
def VideoEncoder.keyframe_forced (s : VideoEncoderState) : Bool :=
  s.config.framerate * 2 ≤ s.frame_count + 1 - s.last_keyframe

/-- VideoEncoder::encode_frame (encoder.rs lines 46-66): increments the
frame counter, applies the keyframe policy, then fails with
EncoderNotInitialized when no codec handle is present, and otherwise
returns the converted data. -/
def VideoEncoder.encode_frame (s : VideoEncoderState) (rgba_data : List Nat) :
    VideoEncoderState × Except AgentError (List Nat) :=
  let frame_count := s.frame_count + 1
  let last_keyframe :=
    if s.config.framerate * 2 ≤ frame_count - s.last_keyframe then frame_count
    else s.last_keyframe
  let s1 := { s with frame_count := frame_count, last_keyframe := last_keyframe }
  match s.encoder with
  | none => (s1, .error .encoderNotInitialized)
  | some _ => (s1, .ok (rgba_to_yuv420 rgba_data))

/-- C5: the quality-to-bitrate table is exactly Low 500 kbps, Medium
1.5 Mbps, High 3 Mbps, Ultra 6 Mbps, and it is monotonically
non-decreasing in the quality order Low, Medium, High, Ultra. -/
theorem bitrate_table_monotone :
    (∀ c : CaptureConfig,
       (c.quality = .low → get_bitrate c = 500000)
       ∧ (c.quality = .medium → get_bitrate c = 1500000)
       ∧ (c.quality = .high → get_bitrate c = 3000000)
       ∧ (c.quality = .ultra → get_bitrate c = 6000000))
    ∧ ∀ c₁ c₂ : CaptureConfig, c₁.quality.rank ≤ c₂.quality.rank →
        get_bitrate c₁ ≤ get_bitrate c₂ := by
  constructor
  · intro c
    refine ⟨fun h => ?_, fun h => ?_, fun h => ?_, fun h => ?_⟩ <;>
      simp [get_bitrate, h]
  · intro c₁ c₂ hq
    cases h1 : c₁.quality <;> cases h2 : c₂.quality <;>
      simp [get_bitrate, h1, h2] <;>
      simp [Quality.rank, h1, h2] at hq

/-- Witness for C5: the table entries at the default configuration quality
and the monotone comparison Low to Ultra, evaluated concretely. -/
theorem bitrate_table_monotone_witness :
    get_bitrate Config.default.capture = 1500000
    ∧ get_bitrate { Config.default.capture with quality := .low }
        ≤ get_bitrate { Config.default.capture with quality := .ultra } := by
  exact ⟨(bitrate_table_monotone.1 Config.default.capture).2.1 rfl,
         bitrate_table_monotone.2 _ _ (by decide)⟩

/-- C7: encode_frame returns the EncoderNotInitialized error exactly when
no codec handle is present; a successful initialize installs the handle
(and a failed one leaves the state alone), shutdown removes it, and a
fresh encoder has none. -/
theorem encode_frame_not_initialized_iff (s : VideoEncoderState)
    (rgba_data : List Nat) (codec_ok : Bool) (config : CaptureConfig) :
    ((VideoEncoder.encode_frame s rgba_data).2 = .error .encoderNotInitialized
      ↔ s.encoder = none)
    ∧ ((VideoEncoder.initEncoder s codec_ok).2 = .ok () →
        (VideoEncoder.initEncoder s codec_ok).1.encoder = some ())
    ∧ ((VideoEncoder.initEncoder s codec_ok).2 ≠ .ok () →
        (VideoEncoder.initEncoder s codec_ok).1 = s)
    ∧ (VideoEncoder.shutdown s).1.encoder = none
    ∧ (VideoEncoder.new config).encoder = none := by
  refine ⟨?_, ?_, ?_, rfl, rfl⟩
  · cases h : s.encoder <;> simp [VideoEncoder.encode_frame, h]
  · cases codec_ok <;> simp [VideoEncoder.initEncoder]
  · cases codec_ok <;> simp [VideoEncoder.initEncoder]

/-- Demonstration capture configuration: the default one. -/
def demoCaptureConfig : CaptureConfig := Config.default.capture

/-- Witness for C7: on a fresh encoder the error fires; after a successful
initialize it does not; after shutdown it fires again. -/
theorem encode_frame_not_initialized_iff_witness :
    (VideoEncoder.encode_frame (VideoEncoder.new demoCaptureConfig) []).2
      = .error .encoderNotInitialized
    ∧ (VideoEncoder.initEncoder (VideoEncoder.new demoCaptureConfig) true).1.encoder
      = some () := by
  constructor
  · exact (encode_frame_not_initialized_iff (VideoEncoder.new demoCaptureConfig)
      [] true demoCaptureConfig).1.mpr rfl
  · exact (encode_frame_not_initialized_iff (VideoEncoder.new demoCaptureConfig)
      [] true demoCaptureConfig).2.1 rfl

/-- Run of n consecutive encode_frame calls starting from a freshly
constructed and successfully initialized encoder, with datas supplying the
raw frame bytes of each call (the keyframe bookkeeping is independent of
them). -/
def encode_run (config : CaptureConfig) (datas : Nat → List Nat) :
    Nat → VideoEncoderState
  | 0 => (VideoEncoder.initEncoder (VideoEncoder.new config) true).1
  | n + 1 => (VideoEncoder.encode_frame (encode_run config datas n) (datas n)).1

/-- Whether the n-th encode call of the run (0-indexed) forces a keyframe. -/
def keyframe_at (config : CaptureConfig) (datas : Nat → List Nat) (n : Nat) : Bool :=
  VideoEncoder.keyframe_forced (encode_run config datas n)

theorem encode_frame_state (s : VideoEncoderState) (d : List Nat) :
    (VideoEncoder.encode_frame s d).1
      = { s with frame_count := s.frame_count + 1,
                 last_keyframe :=
                   if s.config.framerate * 2 ≤ s.frame_count + 1 - s.last_keyframe
                   then s.frame_count + 1 else s.last_keyframe } := by
  cases h : s.encoder <;> simp [VideoEncoder.encode_frame, h]

theorem encode_run_inv (config : CaptureConfig) (datas : Nat → List Nat)
    (hfr : 1 ≤ config.framerate) (n : Nat) :
    (encode_run config datas n).config = config
    ∧ (encode_run config datas n).last_keyframe
        ≤ (encode_run config datas n).frame_count
    ∧ (encode_run config datas n).frame_count
        - (encode_run config datas n).last_keyframe < config.framerate * 2
    ∧ (encode_run config datas n).encoder = some () := by
  induction n with
  | zero =>
      refine ⟨rfl, le_refl _, ?_, rfl⟩
      show (0 : Nat) - 0 < config.framerate * 2
      omega
  | succ n ih =>
      obtain ⟨hc, hle, hlt, he⟩ := ih
      have hstep : encode_run config datas (n + 1)
          = (VideoEncoder.encode_frame (encode_run config datas n) (datas n)).1 := rfl
      rw [hstep, encode_frame_state]
      rw [hc]
      by_cases hkf : config.framerate * 2
          ≤ (encode_run config datas n).frame_count + 1
            - (encode_run config datas n).last_keyframe
      · rw [if_pos hkf]
        dsimp only
        exact ⟨rfl, le_refl _, by omega, he⟩
      · rw [if_neg hkf]
        dsimp only
        exact ⟨rfl, by omega, by omega, he⟩

theorem no_keyframe_window_diff (config : CaptureConfig) (datas : Nat → List Nat)
    (hfr : 1 ≤ config.framerate) (i : Nat) :
    ∀ m, (∀ j, i ≤ j → j < i + m → keyframe_at config datas j = false) →
      (encode_run config datas (i + m)).frame_count
          - (encode_run config datas (i + m)).last_keyframe
        = ((encode_run config datas i).frame_count
            - (encode_run config datas i).last_keyframe) + m := by
  intro m
  induction m with
  | zero => intro _; rfl
  | succ m ih =>
      intro h
      have hih := ih (fun j h1 h2 => h j h1 (by omega))
      have hkf : keyframe_at config datas (i + m) = false :=
        h (i + m) (by omega) (by omega)
      have hinv := encode_run_inv config datas hfr (i + m)
      obtain ⟨hc, hle, hlt, he⟩ := hinv
      have hcond : ¬ config.framerate * 2
          ≤ (encode_run config datas (i + m)).frame_count + 1
            - (encode_run config datas (i + m)).last_keyframe := by
        have : VideoEncoder.keyframe_forced (encode_run config datas (i + m)) = false := hkf
        rw [VideoEncoder.keyframe_forced, hc] at this
        exact of_decide_eq_false this
      have hstep : encode_run config datas (i + (m + 1))
          = (VideoEncoder.encode_frame (encode_run config datas (i + m))
              (datas (i + m))).1 := rfl
      rw [hstep, encode_frame_state, hc, if_neg hcond]
      dsimp only
      omega

/-- C6: from an initialized encoder, with N = framerate * 2 (the 2-second
keyframe constant times the configured frame rate) and the frame rate at
least one, every window of N consecutive encode calls contains a call that
forces a keyframe, and every such call produces a frame. -/
theorem encoder_keyframe_window (config : CaptureConfig) (datas : Nat → List Nat)
    (hfr : 1 ≤ config.framerate) (i : Nat) :
    (∃ j, i ≤ j ∧ j < i + config.framerate * 2
      ∧ keyframe_at config datas j = true)
    ∧ ∀ n, (VideoEncoder.encode_frame (encode_run config datas n) (datas n)).2
        = .ok (rgba_to_yuv420 (datas n)) := by
  constructor
  · by_contra hno
    push_neg at hno
    have hfalse : ∀ j, i ≤ j → j < i + config.framerate * 2 →
        keyframe_at config datas j = false := by
      intro j h1 h2
      cases hb : keyframe_at config datas j with
      | false => rfl
      | true => exact absurd hb (hno j h1 h2)
    have hdiff := no_keyframe_window_diff config datas hfr i
      (config.framerate * 2) hfalse
    have hinv_i := encode_run_inv config datas hfr i
    have hinv_end := encode_run_inv config datas hfr (i + config.framerate * 2)
    obtain ⟨_, _, hlt_end, _⟩ := hinv_end
    obtain ⟨_, hle_i, _, _⟩ := hinv_i
    omega
  · intro n
    have he := (encode_run_inv config datas hfr n).2.2.2
    simp [VideoEncoder.encode_frame, he]

/-- Witness for C6: at frame rate 1 (window of 2 encode calls) a keyframe
occurs among the first two calls of the concrete run. -/
theorem encoder_keyframe_window_witness :
    ∃ j, 0 ≤ j ∧ j < 0 + 2
      ∧ keyframe_at { demoCaptureConfig with framerate := 1 } (fun _ => []) j
          = true := by
  have h := (encoder_keyframe_window { demoCaptureConfig with framerate := 1 }
    (fun _ => []) (by decide) 0).1
  simpa using h

/-- Frame record as the capture loop handles it (types.rs, struct Frame). -/
structure Frame where
  id : String
  timestamp : Nat
  width : Nat
  height : Nat
  data : List Nat
  format : VideoCodec
  quality : Quality
  compressed : Bool
deriving DecidableEq, Repr

/-- Why the capture loop of CaptureManager::start_capture stopped. -/
inductive CaptureLoopExit
  | flag_cleared
  | send_failed
deriving DecidableEq, Repr

/-- Outcome of one iteration of the capture loop: either another iteration
after sleeping backoff_ms milliseconds, or loop exit. -/
inductive CaptureStepOutcome
  | continue_after (backoff_ms : Nat)
  | exit_loop (reason : CaptureLoopExit)
deriving DecidableEq, Repr

/-- One iteration of the capture loop spawned by
CaptureManager::start_capture (capture.rs lines 177-207).  The iteration
environment is: the value of the shared is_capturing flag read by the
while condition, whether the inter-frame interval has elapsed, the result
of Self::capture_frame, and whether frame_tx.send succeeded.  On a capture
error the body logs and sleeps 100 ms before the next iteration; when the
interval has not elapsed it sleeps 1 ms; on a send failure it breaks out
of the loop. -/
def capture_loop_step (is_capturing : Bool) (interval_elapsed : Bool)
    (capture_result : Except AgentError Frame) (send_ok : Bool) :
    CaptureStepOutcome :=
  if is_capturing = false then .exit_loop .flag_cleared
  else if interval_elapsed = false then .continue_after 1
  else
    match capture_result with
    | .ok _ => if send_ok then .continue_after 0 else .exit_loop .send_failed
    | .error _ => .continue_after 100

/-- Demonstration frame for concrete capture-loop evaluations. -/
def demoFrame : Frame :=
  { id := "f1", timestamp := 0, width := 1920, height := 1080, data := [],
    format := .h264, quality := .medium, compressed := false }

/-- Counterexample for C9: with the is_capturing flag still set, a
successful capture whose delivery to the frame sink fails ends the loop,
so clearing the flag is not the only way the loop terminates. -/
theorem capture_loop_send_failure_exits :
    capture_loop_step true true (.ok demoFrame) false
      = .exit_loop .send_failed
    ∧ CaptureLoopExit.send_failed ≠ CaptureLoopExit.flag_cleared := by
  exact ⟨rfl, by decide⟩

/-- C9 (amended): a failed capture attempt never ends the loop: with the
flag set and the interval elapsed, a capture error always yields another
iteration after the fixed 100 ms backoff; a cleared flag always ends the
loop; and the only ways the loop can end are a cleared flag or a failure
to send a captured frame to the sink. -/
theorem capture_loop_error_recovery (is_capturing interval_elapsed : Bool)
    (capture_result : Except AgentError Frame) (send_ok : Bool) :
    ((is_capturing = true) → (interval_elapsed = true) →
      ∀ e, capture_result = .error e →
        capture_loop_step is_capturing interval_elapsed capture_result send_ok
          = .continue_after 100)
    ∧ (is_capturing = false →
        capture_loop_step is_capturing interval_elapsed capture_result send_ok
          = .exit_loop .flag_cleared)
    ∧ (∀ reason,
        capture_loop_step is_capturing interval_elapsed capture_result send_ok
          = .exit_loop reason →
        (reason = .flag_cleared ∧ is_capturing = false)
        ∨ (reason = .send_failed
           ∧ (∃ f, capture_result = .ok f) ∧ send_ok = false)) := by
  refine ⟨?_, ?_, ?_⟩
  · intro hc he e hres
    subst hc
    subst he
    subst hres
    rfl
  · intro hc
    subst hc
    rfl
  · intro reason hstep
    cases is_capturing with
    | false =>
        simp [capture_loop_step] at hstep
        exact Or.inl ⟨hstep.symm, rfl⟩
    | true =>
        cases interval_elapsed with
        | false => simp [capture_loop_step] at hstep
        | true =>
            cases capture_result with
            | error e => simp [capture_loop_step] at hstep
            | ok f =>
                cases send_ok with
                | true => simp [capture_loop_step] at hstep
                | false =>
                    simp [capture_loop_step] at hstep
                    exact Or.inr ⟨hstep.symm, ⟨f, rfl⟩, rfl⟩

/-- Witness for C9 (amended): a concrete capture error with the flag set
yields another iteration with the 100 ms backoff. -/
theorem capture_loop_error_recovery_witness :
    capture_loop_step true true (.error (.capture "DXGI capture failed")) true
      = .continue_after 100 := by
  exact (capture_loop_error_recovery true true
    (.error (.capture "DXGI capture failed")) true).1 rfl rfl
    (.capture "DXGI capture failed") rfl

/-- Counterexample for C8: a Capture error is not classified recoverable
by the code (and neither is a VideoEncoding error), although the claim
says transient Capture and Encoding kinds are recoverable. -/
theorem capture_error_not_recoverable :
    (AgentError.capture "screen capture failed").is_recoverable = false
    ∧ (AgentError.videoEncoding "encode failed").is_recoverable = false := by
  exact ⟨rfl, rfl⟩

/-- C8 (amended): is_critical holds exactly for the Configuration,
Authentication and Security kinds; is_recoverable holds exactly for the
Network, Transport and WebSocket kinds — Capture and Encoding kinds are
classified neither recoverable nor critical; and no error is both critical
and recoverable. -/
theorem error_classification (e : AgentError) :
    (e.is_critical = true ↔
      ((∃ m, e = .config m) ∨ (∃ m, e = .auth m) ∨ (∃ m, e = .security m)))
    ∧ (e.is_recoverable = true ↔
      ((∃ m, e = .network m) ∨ (∃ m, e = .transport m) ∨ (∃ m, e = .webSocket m)))
    ∧ ¬ (e.is_critical = true ∧ e.is_recoverable = true) := by
  cases e <;>
    simp [AgentError.is_critical, AgentError.is_recoverable]

/-- C10: the default configuration enables authentication without a token,
and validate rejects it with the corresponding Configuration error instead
of succeeding. -/
theorem default_config_fails_validation :
    Config.default.auth.require_auth = true
    ∧ Config.default.auth.token = none
    ∧ Config.default.validate
        = .error (.config "Token required when authentication is enabled") := by
  exact ⟨rfl, rfl, rfl⟩

/-- Witness for C8 (amended): a Network error is recoverable and a
Configuration error is critical, derived from the classification theorem
at concrete errors. -/
theorem error_classification_witness :
    (AgentError.network "connection failed").is_recoverable = true
    ∧ (AgentError.config "invalid config").is_critical = true := by
  exact ⟨(error_classification (AgentError.network "connection failed")).2.1.mpr
           (Or.inl ⟨"connection failed", rfl⟩),
         (error_classification (AgentError.config "invalid config")).1.mpr
           (Or.inl ⟨"invalid config", rfl⟩)⟩
